import Mathlib

/-!
Shallow embedding of the rendezvous-and-session protocol of the AnyOne
client variants.  Each namespace below embeds one concrete variant of the
repository, identified by its PeerJS name prefix:

* `V25` - src/unnamed/part_001  (prefix "anyone-v25-", guest-first probing)
* `V20` - src/unnamed/part_005  (prefix "anyone-v20-", guest-first probing)
* `V12` - src/unnamed/part_000, first document (prefix "anyone-v12-",
  host-first probing)
* `V27` - src/App.tsx, first document (prefix "anyone-v27-", dialer hybrid)
* `V5`  - src/App.tsx, second document (prefix "anyone-v5-room-")
* `D27` - src/unnamed/part_002  (prefix "anyone-v27-", dialer with
  ring / accept / reject and a Disconnect control message)

React state and refs become record fields; event handlers become pure
functions `State → State × List Action`, where `Action` records the side
effects requested from the browser / the PeerJS broker.  Asynchronous
`getUserMedia` results are passed in as an `Option (List Nat)` argument
(`none` = permission rejected, `some ts` = the acquired track ids).
-/

namespace AnyOne

/-- The `AppState` from src/types.ts. -/
inductive AppState
  | IDLE
  | MATCHING
  | CONNECTED
  | ERROR
deriving DecidableEq, Repr

/-- Sender tag of a chat message (`'me' | 'them'`). -/
inductive Sender
  | me
  | them
deriving DecidableEq, Repr

/-- Payloads of the data channel: the duck-typed tagged objects
(`data.type === '...'`) used by the variants, or plain chat text. -/
inductive CtrlMsg
  | BUSY
  | REJECTED
  | DISCONNECT
  | VIDEO_SIGNAL
  | SIGNAL_VIDEO_ENABLE
  | chat (text : String)
deriving DecidableEq, Repr

/-- The `String(data)` as used by the part_000 / App.tsx doc-2 data handlers:
chat text passes through, a tagged object stringifies. -/
def CtrlMsg.asText : CtrlMsg → String
  | .chat t => t
  | _ => "[object Object]"

/-- Local toast messages; each constructor corresponds to one exact string
template of the source, rendered by `Toast.render`. -/
inductive Toast
  | videoRemaining (n : Nat)
  | chatRemaining (n : Nat)
  | v12videoRemaining (n : Nat)
  | v12chatRemaining (n : Nat)
  | v5remaining (n : Nat)
  | videoSoon
  | cameraFailedV25
  | cameraFailedV27
  | micNeeded
deriving DecidableEq, Repr

/-- The exact toast text of each template in the source. -/
def Toast.render : Toast → String
  | .videoRemaining n => "الفيديو متاح بعد " ++ toString n ++ " ثانية"
  | .chatRemaining n => "الشات متاح بعد " ++ toString n ++ " ثانية"
  | .v12videoRemaining n => "متبقي " ++ toString n ++ " ثانية للفيديو"
  | .v12chatRemaining n => "متبقي " ++ toString n ++ " ثانية للدردشة"
  | .v5remaining n => "متبقي " ++ toString n ++ " ثانية للتفعيل"
  | .videoSoon => "الفيديو متاح قريباً"
  | .cameraFailedV25 => "فشل فتح الكاميرا"
  | .cameraFailedV27 => "فشل فتح الكاميرا - تأكد من إعطاء الصلاحية"
  | .micNeeded => "يرجى تفعيل الميكروفون للرد"

/-- The number of remaining seconds stated in the toast text, if any. -/
def Toast.secondsStated : Toast → Option Nat
  | .videoRemaining n => some n
  | .chatRemaining n => some n
  | .v12videoRemaining n => some n
  | .v12chatRemaining n => some n
  | .v5remaining n => some n
  | _ => none

/-- Side effects that an event handler asks the browser / broker to
perform.  Track, connection and call handles are identified by `Nat` ids;
streams are lists of track ids. -/
inductive Action
  | closeCall
  | closeData
  | closeIncoming
  | stopTrack (t : Nat)
  | disconnectPeer
  | destroyPeer
  | sendMsg (m : CtrlMsg)
  | answerEmpty
  | answerWith (tracks : List Nat)
  | closeAfterMs (ms : Nat)
  | getUserMedia (video : Bool)
  | callPeer (target : String) (tracks : List Nat)
  | startRing
  | stopRing
deriving DecidableEq, Repr

/-- Actions that only release resources (closes, stops, destroys); the
match-timeout expiry emits nothing but these - in particular it never
schedules a retry. -/
def Action.isRelease : Action → Bool
  | .closeCall => true
  | .closeData => true
  | .closeIncoming => true
  | .stopTrack _ => true
  | .disconnectPeer => true
  | .destroyPeer => true
  | .stopRing => true
  | _ => false

/-- What a step of the matching loop decides to do next. -/
inductive NextStep
  | probe (slot : Nat)
  | restartAt (slot : Nat) (delayMs : Nat)
  | joinAsGuest (room : String) (slot : Nat)
  | nextSlot (slot : Nat)
  | halt
  | fail
deriving DecidableEq, Repr

/-- Ignoring the probe/restart distinction, does the step schedule a
restart after a delay (a `setTimeout` in the source)? -/
def NextStep.isDelayedRestart : NextStep → Bool
  | .restartAt _ _ => true
  | _ => false

/-- The React state and refs shared verbatim by the part_001 ("v25") and
part_005 ("v20") variants: `appState, selectedLang, error, statusMsg,
matchTimer, elapsedTime, isVideoActive, isChatOpen, messages, inputText,
toast` plus the refs `peerRef, localStreamRef, callRef, dataConnRef,
isBusy, timersRef.current.match, timersRef.current.session`. -/
structure RvSt where
  appState : AppState := .IDLE
  selectedLang : Option String := none
  error : Option String := none
  statusMsg : String := ""
  matchTimer : Nat := 45
  elapsedTime : Nat := 0
  isVideoActive : Bool := false
  isChatOpen : Bool := false
  messages : List (Sender × String) := []
  inputText : String := ""
  toast : Option Toast := none
  peerAlive : Bool := false
  localStream : Option (List Nat) := none
  callConn : Option Nat := none
  dataConn : Option Nat := none
  isBusy : Bool := false
  matchTimerOn : Bool := false
  sessionTimerOn : Bool := false
deriving DecidableEq, Repr

namespace V25

/-- The `APP_PREFIX` of part_001. -/
def roomBase : String := "anyone-v25-"

/-- The `MAX_SLOTS` of part_001. -/
def maxSlots : Nat := 10

/-- The `MATCH_TIMEOUT` of part_001 (seconds). -/
def matchTimeout : Nat := 45

/-- The grace period before a busy host closes a speculative second
connection or call (the `setTimeout(..., 500)` of part_001). -/
def busyGraceMs : Nat := 500

/-- The slot identity `${APP_PREFIX}${selectedLang}-${slot}` computed in
`startMatching` (part_001 line 124) and `becomeHost` (line 166). -/
def roomId (lang : String) (slot : Nat) : String :=
  roomBase ++ lang ++ "-" ++ toString slot

/-- The room id as computed by a running client: `startMatching` reads
`selectedLang` from the client state and returns early when it is unset. -/
def computeRoomId (s : RvSt) (slot : Nat) : Option String :=
  s.selectedLang.map (fun lang => roomId lang slot)

/-- The `cleanup` of part_001 (lines 42-69): clear the busy flag, clear every
interval in `timersRef`, close call and data connection, stop all local
tracks, disconnect and destroy the peer, null the refs, reset the React
state to `IDLE`. -/
def cleanup (s : RvSt) : RvSt × List Action :=
  ({ s with
      isBusy := false
      matchTimerOn := false
      sessionTimerOn := false
      peerAlive := false
      callConn := none
      dataConn := none
      localStream := none
      appState := .IDLE
      statusMsg := ""
      elapsedTime := 0
      matchTimer := matchTimeout
      isVideoActive := false
      isChatOpen := false
      messages := []
      inputText := "" },
   (if s.callConn.isSome then [Action.closeCall] else []) ++
   (if s.dataConn.isSome then [Action.closeData] else []) ++
   (s.localStream.getD []).map Action.stopTrack ++
   (if s.peerAlive then [Action.disconnectPeer, Action.destroyPeer] else []))

/-- The `onConnected` of part_001 (lines 71-76). -/
def onConnected (s : RvSt) : RvSt :=
  { s with
      isBusy := true
      appState := .CONNECTED
      matchTimerOn := false
      sessionTimerOn := true }

/-- The `host.on('connection')` handler inside `becomeHost` (part_001
lines 176-185): a busy host sends `BUSY` on open and closes the connection
after 500 ms; otherwise the connection becomes the data channel. -/
def hostOnConnection (s : RvSt) (conn : Nat) : RvSt × List Action :=
  if s.isBusy then
    (s, [Action.sendMsg .BUSY, Action.closeAfterMs busyGraceMs])
  else
    ({ s with dataConn := some conn }, [])

/-- The `host.on('call')` handler inside `becomeHost` (part_001 lines
187-201): a busy host answers with no stream and closes the call after
500 ms; otherwise it acquires audio and answers with it. -/
def hostOnCall (s : RvSt) (call : Nat) (gum : Option (List Nat)) :
    RvSt × List Action :=
  if s.isBusy then
    (s, [Action.answerEmpty, Action.closeAfterMs busyGraceMs])
  else
    match gum with
    | none => (s, [Action.getUserMedia false])
    | some ts =>
        ({ s with localStream := some ts, callConn := some call },
         [Action.getUserMedia false, Action.answerWith ts])

/-- The entry of `startMatching(slot)` (part_001 lines 116-122): return
when connected or no language is selected; past `MAX_SLOTS` schedule
`startMatching(1)` after 1000 ms; otherwise probe the slot (as guest
first). -/
def startMatchingStep (s : RvSt) (slot : Nat) : NextStep :=
  if s.appState = .CONNECTED ∨ s.selectedLang = none then .halt
  else if maxSlots < slot then .restartAt 1 1000
  else .probe slot

/-- The `host.on('error')` handler of `becomeHost` (part_001 lines
213-222): on `unavailable-id` - and on any other error - destroy the host
peer and call `startMatching(slot + 1)`. -/
def becomeHostOnError (errType : String) (slot : Nat) : NextStep :=
  if errType = "unavailable-id" then .nextSlot (slot + 1)
  else .nextSlot (slot + 1)

/-- The `handleStart` of part_001 (lines 225-244), before the first probe. -/
def handleStart (s : RvSt) (lang : String) : RvSt :=
  { s with
      selectedLang := some lang
      appState := .MATCHING
      matchTimer := matchTimeout
      matchTimerOn := true }

/-- The terminal message of the match timeout in part_001. -/
def noPartnerMsg : String :=
  "لم نجد أحداً حالياً.. تأكد أن أشخاصاً آخرين يستخدمون نفس اللغة"

/-- One tick of the match-timeout interval installed by `handleStart`
(part_001 lines 230-240): at 1 the loop runs `cleanup()`, moves to
`ERROR` with the no-partner message and pins the timer at 0; otherwise it
decrements. -/
def matchTick (s : RvSt) : RvSt × List Action :=
  if s.matchTimer ≤ 1 then
    ({ (cleanup s).1 with appState := .ERROR, error := some noPartnerMsg, matchTimer := 0 },
     (cleanup s).2)
  else
    ({ s with matchTimer := s.matchTimer - 1 }, [])

/-- The `toggleVideo` of part_001 (lines 246-266): before 60 s of elapsed time
and with video off, reject locally with a toast stating the remaining
seconds; otherwise acquire audio+video, replace the local stream, signal
`VIDEO_SIGNAL` over the data channel, re-call the remote with the richer
stream (`newCall` is the id of that call) and set video active. -/
def toggleVideo (s : RvSt) (gum : Option (List Nat)) (newCall : Nat) :
    RvSt × List Action :=
  if s.elapsedTime < 60 ∧ s.isVideoActive = false then
    ({ s with toast := some (Toast.videoRemaining (60 - s.elapsedTime)) }, [])
  else
    match gum with
    | none => ({ s with toast := some Toast.cameraFailedV25 },
               [Action.getUserMedia true])
    | some ts =>
        ({ s with
            localStream := some ts
            isVideoActive := true
            callConn :=
              if s.callConn.isSome ∧ s.peerAlive then some newCall
              else s.callConn },
         [Action.getUserMedia true] ++
         (if s.dataConn.isSome then [Action.sendMsg .VIDEO_SIGNAL] else []))

/-- The chat-button gate of part_001 (line 368): open the chat at 30 s of
elapsed time, otherwise toast the remaining seconds. -/
def chatButton (s : RvSt) : RvSt :=
  if 30 ≤ s.elapsedTime then { s with isChatOpen := true }
  else { s with toast := some (Toast.chatRemaining (30 - s.elapsedTime)) }

end V25

namespace V20

/-- The `APP_PREFIX` of part_005. -/
def roomBase : String := "anyone-v20-"

/-- The `MAX_SLOTS` of part_005. -/
def maxSlots : Nat := 15

/-- The `MATCH_TIMEOUT` of part_005 (seconds). -/
def matchTimeout : Nat := 30

/-- The slot identity of part_005 (line 119). -/
def roomId (lang : String) (slot : Nat) : String :=
  roomBase ++ lang ++ "-" ++ toString slot

/-- The `host.on('connection')` handler inside `tryToBeHost` (part_005
lines 171-180): identical busy handling to part_001. -/
def hostOnConnection (s : RvSt) (conn : Nat) : RvSt × List Action :=
  if s.isBusy then
    (s, [Action.sendMsg .BUSY, Action.closeAfterMs 500])
  else
    ({ s with dataConn := some conn }, [])

/-- The `host.on('call')` handler inside `tryToBeHost` (part_005 lines
182-192). -/
def hostOnCall (s : RvSt) (call : Nat) (gum : Option (List Nat)) :
    RvSt × List Action :=
  if s.isBusy then
    (s, [Action.answerEmpty, Action.closeAfterMs 500])
  else
    match gum with
    | none => (s, [Action.getUserMedia false])
    | some ts =>
        ({ s with localStream := some ts, callConn := some call },
         [Action.getUserMedia false, Action.answerWith ts])

/-- The entry of `findPartner(slot)` (part_005 lines 111-117): past
`MAX_SLOTS`, schedule `findPartner(1)` after 1000 ms. -/
def findPartnerStep (s : RvSt) (slot : Nat) : NextStep :=
  if s.appState = .CONNECTED ∨ s.selectedLang = none then .halt
  else if maxSlots < slot then .restartAt 1 1000
  else .probe slot

/-- The `host.on('error')` handler of `tryToBeHost` (part_005 lines
195-199): destroy the host and call `findPartner(slot + 1)`,
unconditionally. -/
def tryToBeHostOnError (_errType : String) (slot : Nat) : NextStep :=
  .nextSlot (slot + 1)

end V20

/-- The React state and refs of the part_000 first document ("v12"):
`appState, selectedLang, error, statusMsg, matchTimer, liveCounts,
elapsedTime, isVideoActive, isChatOpen, messages, inputText, toast` plus
refs `peerRef, localStreamRef, callRef, dataConnRef,
matchingIntervalRef, callTimerRef, sessionIntervalRef`. -/
structure V12St where
  appState : AppState := .IDLE
  selectedLang : Option String := none
  error : Option String := none
  statusMsg : String := ""
  matchTimer : Nat := 30
  elapsedTime : Nat := 0
  isVideoActive : Bool := false
  isChatOpen : Bool := false
  messages : List (Sender × String) := []
  inputText : String := ""
  toast : Option Toast := none
  peerAlive : Bool := false
  localStream : Option (List Nat) := none
  callConn : Option Nat := none
  dataConn : Option Nat := none
  matchingTimerOn : Bool := false
  callTimerOn : Bool := false
  sessionTimerOn : Bool := false
deriving DecidableEq, Repr

namespace V12

/-- The `APP_PREFIX` of part_000. -/
def roomBase : String := "anyone-v12-"

/-- The `MAX_SEQUENTIAL_SLOTS` of part_000. -/
def maxSequentialSlots : Nat := 20

/-- The `MATCH_TIMEOUT_LIMIT` of part_000 (seconds). -/
def matchTimeoutLimit : Nat := 30

/-- The `SLOT_PROBE_TIMEOUT` of part_000 (ms). -/
def slotProbeTimeoutMs : Nat := 2500

/-- The slot identity `${APP_PREFIX}${selectedLang}-slot-${currentSlot}`
of part_000 (line 151). -/
def roomId (lang : String) (slot : Nat) : String :=
  roomBase ++ lang ++ "-slot-" ++ toString slot

/-- The inline slot normalisation of `startMatchingSequence` (part_000
line 150): past `MAX_SEQUENTIAL_SLOTS` the rotation wraps to 1, with no
scheduled delay. -/
def currentSlot (slotIndex : Nat) : Nat :=
  if maxSequentialSlots < slotIndex then 1 else slotIndex

/-- The entry of `startMatchingSequence(slotIndex)` (part_000 lines
140-158): return when connected or no language; a spent match timer is
the terminal no-partner branch; otherwise register as host of the
(wrapped) slot. -/
def startMatchingSequenceStep (appState : AppState) (lang : Option String)
    (matchTimer : Nat) (slotIndex : Nat) : NextStep :=
  if appState = .CONNECTED ∨ lang = none then .halt
  else if matchTimer = 0 then .fail
  else .probe (currentSlot slotIndex)

/-- The `peer.on('error')` handler of `startMatchingSequence` (part_000
lines 180-189): `unavailable-id` means the room is taken, so destroy the
peer and join the same room as guest (`attemptToJoin(targetRoomId,
currentSlot)`); any other error advances to the next slot. -/
def hostOnError (lang : String) (slot : Nat) (errType : String) : NextStep :=
  if errType = "unavailable-id" then .joinAsGuest (roomId lang slot) slot
  else .nextSlot (slot + 1)

/-- The `isChatEnabled` of part_000 (line 35): `elapsedTime >= 60`. -/
def isChatEnabled (s : V12St) : Bool :=
  decide (60 ≤ s.elapsedTime)

/-- The `isVideoEnabled` of part_000 (line 36): `elapsedTime >= 120`. -/
def isVideoEnabled (s : V12St) : Bool :=
  decide (120 ≤ s.elapsedTime)

/-- The `enableVideo(force)` of part_000 (lines 244-262): a no-op when video
is already active; before the 120 s gate (and not forced) reject locally
with the remaining-seconds toast; otherwise acquire audio+video, stop the
old tracks, replace the stream, signal `SIGNAL_VIDEO_ENABLE` when not
forced, re-call the remote (`newCall`) and set video active. -/
def enableVideo (s : V12St) (force : Bool) (gum : Option (List Nat))
    (newCall : Nat) : V12St × List Action :=
  if s.isVideoActive then (s, [])
  else if isVideoEnabled s = false ∧ force = false then
    ({ s with toast := some (Toast.v12videoRemaining (120 - s.elapsedTime)) }, [])
  else
    match gum with
    | none => (s, [Action.getUserMedia true])
    | some ts =>
        ({ s with
            localStream := some ts
            isVideoActive := true
            callConn :=
              if s.callConn.isSome ∧ s.peerAlive then some newCall
              else s.callConn },
         [Action.getUserMedia true] ++
         (s.localStream.getD []).map Action.stopTrack ++
         (if s.dataConn.isSome ∧ force = false then
            [Action.sendMsg .SIGNAL_VIDEO_ENABLE]
          else []))

/-- The chat-button gate of part_000 (line 400): open the chat once
`isChatEnabled` (60 s of elapsed time), otherwise toast the remaining
seconds for the chat. -/
def chatButton (s : V12St) : V12St :=
  if isChatEnabled s then { s with isChatOpen := true }
  else { s with toast := some (Toast.v12chatRemaining (60 - s.elapsedTime)) }

/-- The `conn.on('data')` handler of part_000 (lines 132-135): a
`SIGNAL_VIDEO_ENABLE` object triggers `enableVideo(true)`; everything
else is appended as a chat message via `String(data)`. -/
def onData (s : V12St) (d : CtrlMsg) (gum : Option (List Nat))
    (newCall : Nat) : V12St × List Action :=
  match d with
  | .SIGNAL_VIDEO_ENABLE => enableVideo s true gum newCall
  | m => ({ s with messages := s.messages ++ [(Sender.them, m.asText)] }, [])

end V12

/-- The React state and refs of the App.tsx first document ("v27",
dialer hybrid): the rendezvous fields plus `myPeerId, dialerValue,
isDialerOpen`; `cleanup` there does not destroy the persistent peer. -/
structure V27St where
  appState : AppState := .IDLE
  selectedLang : Option String := none
  error : Option String := none
  statusMsg : String := ""
  matchTimer : Nat := 45
  elapsedTime : Nat := 0
  isVideoActive : Bool := false
  isChatOpen : Bool := false
  messages : List (Sender × String) := []
  inputText : String := ""
  toast : Option Toast := none
  myPeerId : String := "..."
  dialerValue : String := ""
  isDialerOpen : Bool := false
  peerAlive : Bool := false
  localStream : Option (List Nat) := none
  callConn : Option Nat := none
  dataConn : Option Nat := none
  isBusy : Bool := false
  matchTimerOn : Bool := false
  sessionTimerOn : Bool := false
deriving DecidableEq, Repr

namespace V27

/-- The `APP_PREFIX` of the App.tsx first document. -/
def roomBase : String := "anyone-v27-"

/-- The `MAX_SLOTS` of the App.tsx first document. -/
def maxSlots : Nat := 10

/-- The `MATCH_TIMEOUT` of the App.tsx first document (seconds). -/
def matchTimeout : Nat := 45

/-- The slot identity `${APP_PREFIX}${selectedLang}-${slot}` computed in
`startMatching` (App.tsx line 250). -/
def roomId (lang : String) (slot : Nat) : String :=
  roomBase ++ lang ++ "-" ++ toString slot

/-- The room id as computed by a running client (uses `selectedLang`;
`startMatching` returns early when it is unset). -/
def computeRoomId (s : V27St) (slot : Nat) : Option String :=
  s.selectedLang.map (fun lang => roomId lang slot)

/-- The `cleanup` of the App.tsx first document (lines 110-140): clear the
busy flag, clear every interval in `timersRef`, close (after removing
listeners) call and data connection, stop all local tracks, null the
refs and reset to `IDLE`; the persistent dialer peer is kept. -/
def cleanup (s : V27St) : V27St × List Action :=
  ({ s with
      isBusy := false
      matchTimerOn := false
      sessionTimerOn := false
      callConn := none
      dataConn := none
      localStream := none
      appState := .IDLE
      statusMsg := ""
      elapsedTime := 0
      matchTimer := matchTimeout
      isVideoActive := false
      isChatOpen := false
      messages := []
      inputText := ""
      dialerValue := ""
      isDialerOpen := false },
   (if s.callConn.isSome then [Action.closeCall] else []) ++
   (if s.dataConn.isSome then [Action.closeData] else []) ++
   (s.localStream.getD []).map Action.stopTrack)

/-- The entry of `startMatching(slot)` in the App.tsx first document
(lines 243-249): return when connected, no language is selected, or the
persistent peer is gone; past `MAX_SLOTS` schedule `startMatching(1)`
after 1000 ms; otherwise probe the slot. -/
def startMatchingStep (s : V27St) (slot : Nat) : NextStep :=
  if s.appState = .CONNECTED ∨ s.selectedLang = none ∨ s.peerAlive = false then .halt
  else if maxSlots < slot then .restartAt 1 1000
  else .probe slot

/-- The `handleStart` of the App.tsx first document (lines 310-326), before
the first probe. -/
def handleStart (s : V27St) (lang : String) : V27St :=
  { s with
      selectedLang := some lang
      appState := .MATCHING
      matchTimer := matchTimeout
      matchTimerOn := true }

/-- The terminal message of the match timeout in the App.tsx first
document. -/
def noUsersMsg : String := "لا يوجد مستخدمين متاحين حالياً"

/-- One tick of the match-timeout interval installed by `handleStart`
(App.tsx lines 314-324). -/
def matchTick (s : V27St) : V27St × List Action :=
  if s.matchTimer ≤ 1 then
    ({ (cleanup s).1 with appState := .ERROR, error := some noUsersMsg, matchTimer := 0 },
     (cleanup s).2)
  else
    ({ s with matchTimer := s.matchTimer - 1 }, [])

/-- The `toggleVideo` of the App.tsx first document (lines 207-241): before
5 s of elapsed time with video off, reject locally with the generic
"available soon" toast (no seconds count); otherwise acquire a stream
(video requested iff video is currently off) and either upgrade -
signalling `VIDEO_SIGNAL` and re-calling the remote - or downgrade by
turning the local video flag off. -/
def toggleVideo (s : V27St) (gum : Option (List Nat)) (newCall : Nat) :
    V27St × List Action :=
  if s.elapsedTime < 5 ∧ s.isVideoActive = false then
    ({ s with toast := some Toast.videoSoon }, [])
  else
    match gum with
    | none => ({ s with toast := some Toast.cameraFailedV27 },
               [Action.getUserMedia (!s.isVideoActive)])
    | some ts =>
        if s.isVideoActive = false then
          ({ s with
              localStream := some ts
              isVideoActive := true
              callConn :=
                if s.callConn.isSome ∧ s.peerAlive then some newCall
                else s.callConn },
           [Action.getUserMedia true] ++
           (if s.dataConn.isSome then [Action.sendMsg .VIDEO_SIGNAL] else []))
        else
          ({ s with localStream := some ts, isVideoActive := false },
           [Action.getUserMedia false])

end V27

/-- The React state and refs of the App.tsx second document ("v5"). -/
structure V5St where
  appState : AppState := .IDLE
  error : Option String := none
  statusMsg : String := ""
  elapsedTime : Nat := 0
  isVideoActive : Bool := false
  isChatOpen : Bool := false
  messages : List (Sender × String) := []
  inputText : String := ""
  toast : Option Toast := none
  peerAlive : Bool := false
  localStream : Option (List Nat) := none
  callConn : Option Nat := none
  dataConn : Option Nat := none
  scanTimerOn : Bool := false
  sessionTimerOn : Bool := false
deriving DecidableEq, Repr

namespace V5

/-- The `SLOT_PREFIX` of the App.tsx second document. -/
def slotBase : String := "anyone-v5-room-"

/-- The `MAX_SLOTS` of the App.tsx second document. -/
def maxSlots : Nat := 5

/-- The `isChatEnabled` of the App.tsx second document (line 567). -/
def isChatEnabled (s : V5St) : Bool :=
  decide (60 ≤ s.elapsedTime)

/-- The `isVideoEnabled` of the App.tsx second document (line 568). -/
def isVideoEnabled (s : V5St) : Bool :=
  decide (120 ≤ s.elapsedTime)

/-- The `enableVideo` of the App.tsx second document (lines 627-666): a no-op
when video is already active; before the 120 s gate reject locally with
the remaining-seconds toast (`showToast('video')`, lines 620-625);
otherwise acquire audio+video, stop the old tracks, replace the stream,
signal `SIGNAL_VIDEO_ENABLE`, re-call the remote and set video active. -/
def enableVideo (s : V5St) (gum : Option (List Nat)) (newCall : Nat) :
    V5St × List Action :=
  if s.isVideoActive then (s, [])
  else if isVideoEnabled s = false then
    ({ s with toast := some (Toast.v5remaining (120 - s.elapsedTime)) }, [])
  else
    match gum with
    | none => (s, [Action.getUserMedia true])
    | some ts =>
        ({ s with
            localStream := some ts
            isVideoActive := true
            callConn :=
              if s.callConn.isSome ∧ s.peerAlive then some newCall
              else s.callConn },
         [Action.getUserMedia true] ++
         (s.localStream.getD []).map Action.stopTrack ++
         (if s.dataConn.isSome then [Action.sendMsg .SIGNAL_VIDEO_ENABLE]
          else []))

/-- The chat-button gate of the App.tsx second document (line 903): open
the chat once `isChatEnabled` (60 s of elapsed time), otherwise
`showToast('chat')` with the remaining seconds (lines 620-625). -/
def chatButton (s : V5St) : V5St :=
  if isChatEnabled s then { s with isChatOpen := true }
  else { s with toast := some (Toast.v5remaining (60 - s.elapsedTime)) }

/-- The `conn.on('data')` handler of the App.tsx second document (lines
668-684): on `SIGNAL_VIDEO_ENABLE`, upgrade if allowed, force the gate
open (`setElapsedTime(120)`) if the remote initiated early, and do
nothing if video is already active; everything else is appended as chat
text. -/
def onData (s : V5St) (d : CtrlMsg) (gum : Option (List Nat))
    (newCall : Nat) : V5St × List Action :=
  match d with
  | .SIGNAL_VIDEO_ENABLE =>
      if s.isVideoActive = false ∧ isVideoEnabled s = true then
        enableVideo s gum newCall
      else if s.isVideoActive = false then
        enableVideo { s with elapsedTime := 120 } gum newCall
      else (s, [])
  | m => ({ s with messages := s.messages ++ [(Sender.them, m.asText)] }, [])

end V5

/-- The React state and refs of part_002 ("d27", the dialer variant with
ring / accept / reject): the v27 fields plus `incomingCall, callerId` and
the ring timer; `callConn` carries the remote peer id
(`callRef.current.peer`). -/
structure D27St where
  appState : AppState := .IDLE
  selectedLang : Option String := none
  error : Option String := none
  statusMsg : String := ""
  matchTimer : Nat := 45
  elapsedTime : Nat := 0
  isVideoActive : Bool := false
  isChatOpen : Bool := false
  messages : List (Sender × String) := []
  inputText : String := ""
  toast : Option Toast := none
  myPeerId : String := "..."
  dialerValue : String := ""
  isDialerOpen : Bool := false
  incomingCall : Option (Nat × String) := none
  callerId : Option String := none
  peerAlive : Bool := false
  localStream : Option (List Nat) := none
  callConn : Option (Nat × String) := none
  dataConn : Option Nat := none
  isBusy : Bool := false
  matchTimerOn : Bool := false
  sessionTimerOn : Bool := false
  ringTimerOn : Bool := false
deriving DecidableEq, Repr

namespace D27

/-- The `MATCH_TIMEOUT` of part_002 (seconds). -/
def matchTimeout : Nat := 45

/-- The `cleanup` of part_002 (lines 148-184): clear the busy flag, stop the
ring, clear the interval timers, close the call, send `DISCONNECT` over
the data channel and then close it, stop all local tracks, clear the
incoming-call state and reset to `IDLE`; the persistent peer is kept. -/
def cleanup (s : D27St) : D27St × List Action :=
  ({ s with
      isBusy := false
      ringTimerOn := false
      matchTimerOn := false
      sessionTimerOn := false
      callConn := none
      dataConn := none
      localStream := none
      incomingCall := none
      callerId := none
      appState := .IDLE
      statusMsg := ""
      elapsedTime := 0
      matchTimer := matchTimeout
      isVideoActive := false
      isChatOpen := false
      messages := []
      inputText := ""
      dialerValue := ""
      isDialerOpen := false },
   [Action.stopRing] ++
   (if s.callConn.isSome then [Action.closeCall] else []) ++
   (if s.dataConn.isSome then [Action.sendMsg .DISCONNECT, Action.closeData]
    else []) ++
   (s.localStream.getD []).map Action.stopTrack)

/-- The `handleAccept(callInstance?)` of part_002 (lines 186-202): stop the
ring, take the explicit call or the ringing one, acquire a stream
(`{audio: true, video: isVideoActive}`), answer with it and install the
call; a missing call or a rejected permission leaves the state ringing-
free but unanswered. -/
def handleAccept (s : D27St) (callArg : Option (Nat × String))
    (gum : Option (List Nat)) : D27St × List Action :=
  match callArg.orElse (fun _ => s.incomingCall) with
  | none => ({ s with ringTimerOn := false }, [Action.stopRing])
  | some (cid, p) =>
      match gum with
      | none =>
          ({ s with ringTimerOn := false, toast := some Toast.micNeeded },
           [Action.stopRing, Action.getUserMedia s.isVideoActive])
      | some ts =>
          ({ s with
              ringTimerOn := false
              localStream := some ts
              callConn := some (cid, p)
              incomingCall := none
              callerId := none },
           [Action.stopRing, Action.getUserMedia s.isVideoActive,
            Action.answerWith ts])

/-- The `handleReject` of part_002 (lines 204-212): stop the ring, send
`REJECTED` if a data connection exists, close the ringing call and clear
the incoming-call state; no media is acquired. -/
def handleReject (s : D27St) : D27St × List Action :=
  ({ s with ringTimerOn := false, incomingCall := none, callerId := none },
   [Action.stopRing] ++
   (if s.dataConn.isSome then [Action.sendMsg .REJECTED] else []) ++
   (if s.incomingCall.isSome then [Action.closeIncoming] else []))

/-- The `peer.on('call')` handler of part_002 (lines 111-128): a call
from the peer we are already talking to is a video-upgrade re-call and is
auto-accepted; a call while busy with someone else is answered empty and
closed after 500 ms; otherwise the call rings (no media is touched). -/
def onIncomingCall (s : D27St) (callId : Nat) (fromPeer : String)
    (gum : Option (List Nat)) : D27St × List Action :=
  if s.isBusy = true ∧ s.callConn.map Prod.snd = some fromPeer then
    handleAccept s (some (callId, fromPeer)) gum
  else if s.isBusy = true then
    (s, [Action.answerEmpty, Action.closeAfterMs 500])
  else
    ({ s with
        callerId := some fromPeer
        incomingCall := some (callId, fromPeer)
        ringTimerOn := true },
     [Action.startRing])

/-- The error text shown on receiving `BUSY` in part_002. -/
def busyRemoteMsg : String := "الشريك مشغول حالياً"

/-- The error text shown on receiving `REJECTED` in part_002. -/
def rejectedRemoteMsg : String := "تم رفض المكالمة"

/-- The `conn.on('data')` handler of part_002 (lines 224-240): `BUSY` and
`REJECTED` tear down and surface an error; `DISCONNECT` tears down to
`IDLE`; `VIDEO_SIGNAL` flips the video flag; plain text is chat; an
object with any other tag is ignored. -/
def onData (s : D27St) (d : CtrlMsg) : D27St × List Action :=
  match d with
  | .BUSY =>
      let c := cleanup s
      ({ c.1 with error := some busyRemoteMsg, appState := .ERROR }, c.2)
  | .REJECTED =>
      let c := cleanup s
      ({ c.1 with error := some rejectedRemoteMsg, appState := .ERROR }, c.2)
  | .DISCONNECT => cleanup s
  | .VIDEO_SIGNAL => ({ s with isVideoActive := true }, [])
  | .chat t => ({ s with messages := s.messages ++ [(Sender.them, t)] }, [])
  | .SIGNAL_VIDEO_ENABLE => (s, [])

/-- The dialer-mode user/broker events relevant to ringing. -/
inductive Ev
  | incomingCall (callId : Nat) (fromPeer : String) (gum : Option (List Nat))
  | accept (gum : Option (List Nat))
  | reject
deriving DecidableEq, Repr

/-- Whether the event is the user's accept intent. -/
def Ev.isAccept : Ev → Bool
  | .accept _ => true
  | _ => false

/-- Dispatch one event to its part_002 handler. -/
def step (s : D27St) (e : Ev) : D27St × List Action :=
  match e with
  | .incomingCall cid p gum => onIncomingCall s cid p gum
  | .accept gum => handleAccept s none gum
  | .reject => handleReject s

/-- All actions emitted while running a sequence of events. -/
def run (s : D27St) : List Ev → List Action
  | [] => []
  | e :: es => (step s e).2 ++ run (step s e).1 es

end D27

/-! ## Concrete states used to evaluate the theorems on closed inputs -/

/-- A v25 session in a live call: call, data channel, one local track,
live peer, session timer running. -/
def rvLive : RvSt :=
  { appState := .CONNECTED, callConn := some 1, dataConn := some 2, localStream := some [5], peerAlive := true, isBusy := true, sessionTimerOn := true }

/-- A v27 session in a live call. -/
def v27Live : V27St :=
  { appState := .CONNECTED, callConn := some 1, dataConn := some 2, localStream := some [6], isBusy := true, sessionTimerOn := true }

/-- A v25 matching state whose match timer is about to expire. -/
def rvExpired : RvSt :=
  { appState := .MATCHING, selectedLang := some "en", matchTimer := 1, matchTimerOn := true, peerAlive := true }

/-- A v27 matching state whose match timer is about to expire. -/
def v27Expired : V27St :=
  { appState := .MATCHING, selectedLang := some "en", matchTimer := 1, matchTimerOn := true, peerAlive := true }

/-- A v25 session 10 s in (before the 60 s video gate). -/
def rvEarly : RvSt := { appState := .CONNECTED, elapsedTime := 10 }

/-- A v25 session at the 60 s video gate. -/
def rvReady : RvSt := { appState := .CONNECTED, elapsedTime := 60 }

/-- A v12 session 119 s in (before the 120 s video gate). -/
def v12Early : V12St := { elapsedTime := 119 }

/-- A v12 session 30 s in (before the 60 s chat gate). -/
def v12ChatEarly : V12St := { elapsedTime := 30 }

/-- A v5 session 59 s in (before the 60 s chat gate). -/
def v5ChatEarly : V5St := { elapsedTime := 59 }

/-- A v5 session at the 60 s chat gate. -/
def v5ChatReady : V5St := { elapsedTime := 60 }

/-- A v12 session at the 120 s video gate. -/
def v12Ready : V12St := { elapsedTime := 120 }

/-- A v27 dialer session at 0 s (before the 5 s gate). -/
def v27Early : V27St := { appState := .CONNECTED }

/-- A v27 dialer session at the 5 s gate. -/
def v27Ready : V27St := { appState := .CONNECTED, elapsedTime := 5 }

/-- A d27 dialer with a call ringing from peer "555". -/
def d27Ringing : D27St := { incomingCall := some (2, "555") }

/-- A d27 dialer in a live call with data channel and a local track. -/
def d27Live : D27St :=
  { appState := .CONNECTED, dataConn := some 2, callConn := some (1, "777"), localStream := some [5], isBusy := true }

/-- A second d27 dialer in a live call. -/
def d27Live2 : D27St :=
  { appState := .CONNECTED, dataConn := some 3, callConn := some (4, "888"), isBusy := true }

/-! ## Helper lemmas -/

/-- Every action emitted by the v25 `cleanup` only releases resources. -/
theorem v25_cleanup_actions_release (s : RvSt) :
    ((V25.cleanup s).2).all Action.isRelease = true := by
  rw [List.all_eq_true]
  intro a ha
  simp only [V25.cleanup] at ha
  rcases List.mem_append.mp ha with h | h
  · rcases List.mem_append.mp h with h | h
    · rcases List.mem_append.mp h with h | h
      · split at h
        · simp only [List.mem_singleton] at h; subst h; rfl
        · simp at h
      · split at h
        · simp only [List.mem_singleton] at h; subst h; rfl
        · simp at h
    · rcases List.mem_map.mp h with ⟨t, _, rfl⟩; rfl
  · split at h
    · simp only [List.mem_cons, List.mem_singleton, List.not_mem_nil, or_false] at h
      rcases h with rfl | rfl <;> rfl
    · simp at h

/-- Every action emitted by the v27 `cleanup` only releases resources. -/
theorem v27_cleanup_actions_release (s : V27St) :
    ((V27.cleanup s).2).all Action.isRelease = true := by
  rw [List.all_eq_true]
  intro a ha
  simp only [V27.cleanup] at ha
  rcases List.mem_append.mp ha with h | h
  · rcases List.mem_append.mp h with h | h
    · split at h
      · simp only [List.mem_singleton] at h; subst h; rfl
      · simp at h
    · split at h
      · simp only [List.mem_singleton] at h; subst h; rfl
      · simp at h
  · rcases List.mem_map.mp h with ⟨t, _, rfl⟩; rfl

/-- A v12 `enableVideo` call with video already active is the identity. -/
theorem v12_enableVideo_active (u : V12St) (f : Bool) (g : Option (List Nat))
    (n : Nat) (h : u.isVideoActive = true) :
    V12.enableVideo u f g n = (u, []) := by
  simp [V12.enableVideo, h]

/-- A v5 `enableVideo` call with video already active is the identity. -/
theorem v5_enableVideo_active (w : V5St) (g : Option (List Nat)) (n : Nat)
    (h : w.isVideoActive = true) :
    V5.enableVideo w g n = (w, []) := by
  simp [V5.enableVideo, h]

/-- No dialer event handler changes the busy flag (it is only set by
`onConnected`, outside these handlers). -/
theorem d27_step_isBusy (s : D27St) (e : D27.Ev) :
    (D27.step s e).1.isBusy = s.isBusy := by
  cases e with
  | incomingCall cid p gum =>
      simp only [D27.step, D27.onIncomingCall, D27.handleAccept]
      split
      · split
        · rfl
        · split <;> rfl
      · split <;> rfl
  | accept gum =>
      simp only [D27.step, D27.handleAccept]
      split
      · rfl
      · split <;> rfl
  | reject => rfl

/-- While not busy, no non-accept dialer event emits a `getUserMedia`
request. -/
theorem d27_step_no_gum (s : D27St) (e : D27.Ev) (v : Bool)
    (hb : s.isBusy = false) (he : e.isAccept = false) :
    Action.getUserMedia v ∉ (D27.step s e).2 := by
  cases e with
  | incomingCall cid p gum =>
      simp only [D27.step, D27.onIncomingCall]
      rw [if_neg (by simp [hb]), if_neg (by simp [hb])]
      simp
  | accept gum => simp [D27.Ev.isAccept] at he
  | reject =>
      simp only [D27.step, D27.handleReject]
      intro hmem
      rcases List.mem_append.mp hmem with h | h
      · rcases List.mem_append.mp h with h | h
        · simp at h
        · split at h <;> simp at h
      · split at h <;> simp at h

/-- While not busy, a run of incoming-call and reject events (no accept)
never emits a `getUserMedia` request. -/
theorem d27_run_no_gum (es : List D27.Ev) (s : D27St) (v : Bool)
    (hb : s.isBusy = false) (hes : ∀ e ∈ es, e.isAccept = false) :
    Action.getUserMedia v ∉ D27.run s es := by
  induction es generalizing s with
  | nil => simp [D27.run]
  | cons e es ih =>
      simp only [D27.run, List.mem_append, not_or]
      refine ⟨d27_step_no_gum s e v hb (hes e (by simp)), ?_⟩
      exact ih _ (by rw [d27_step_isBusy]; exact hb)
        (fun x hx => hes x (by simp [hx]))

/-! ## Claims -/

/-- C1 counterexample: a busy v25 host handles a second incoming media
call by answering it empty and closing it after 500 ms - no `Busy`
control message is sent on the media-call path, so the claim that every
second pairing attempt (data connection or media call) is answered with a
`Busy` control message fails on the media-call branch. -/
theorem c1_counterexample :
    (V25.hostOnCall { isBusy := true } 7 none).2
      = [Action.answerEmpty, Action.closeAfterMs 500] ∧
    Action.sendMsg CtrlMsg.BUSY ∉ (V25.hostOnCall { isBusy := true } 7 none).2 := by
  decide

/-- C1 (amended): while a v25 or v20 host is busy, a second incoming data
connection is answered with a `Busy` control message and closed within
the 500 ms grace period, and a second incoming media call is answered
without media and closed within the same grace period; in both cases the
session state is untouched, so the second attempt is never promoted to
Active and never silently dropped. -/
theorem c1_busy_second_pairing
    (s t : RvSt) (conn call : Nat) (gum : Option (List Nat))
    (hs : s.isBusy = true) (ht : t.isBusy = true) :
    V25.hostOnConnection s conn
      = (s, [Action.sendMsg CtrlMsg.BUSY, Action.closeAfterMs V25.busyGraceMs]) ∧
    V25.hostOnCall s call gum
      = (s, [Action.answerEmpty, Action.closeAfterMs V25.busyGraceMs]) ∧
    V25.busyGraceMs = 500 ∧
    (V25.hostOnConnection s conn).1 = s ∧
    (V25.hostOnCall s call gum).1 = s ∧
    (V25.hostOnConnection s conn).2 ≠ [] ∧
    (V25.hostOnCall s call gum).2 ≠ [] ∧
    V20.hostOnConnection t conn
      = (t, [Action.sendMsg CtrlMsg.BUSY, Action.closeAfterMs 500]) ∧
    V20.hostOnCall t call gum
      = (t, [Action.answerEmpty, Action.closeAfterMs 500]) := by
  simp [V25.hostOnConnection, V25.hostOnCall, V20.hostOnConnection,
    V20.hostOnCall, V25.busyGraceMs, hs, ht]

/-- C1 witness: the amended statement at a concrete busy host state. -/
theorem c1_witness :
    V25.hostOnConnection { isBusy := true } 3
      = ({ isBusy := true },
         [Action.sendMsg CtrlMsg.BUSY, Action.closeAfterMs V25.busyGraceMs]) ∧
    V25.hostOnCall { isBusy := true } 4 none
      = ({ isBusy := true }, [Action.answerEmpty, Action.closeAfterMs V25.busyGraceMs]) ∧
    V25.busyGraceMs = 500 ∧
    (V25.hostOnConnection { isBusy := true } 3).1 = { isBusy := true } ∧
    (V25.hostOnCall { isBusy := true } 4 none).1 = { isBusy := true } ∧
    (V25.hostOnConnection { isBusy := true } 3).2 ≠ [] ∧
    (V25.hostOnCall { isBusy := true } 4 none).2 ≠ [] ∧
    V20.hostOnConnection { isBusy := true } 3
      = ({ isBusy := true }, [Action.sendMsg CtrlMsg.BUSY, Action.closeAfterMs 500]) ∧
    V20.hostOnCall { isBusy := true } 4 none
      = ({ isBusy := true }, [Action.answerEmpty, Action.closeAfterMs 500]) :=
  c1_busy_second_pairing { isBusy := true } { isBusy := true } 3 4 none rfl rfl

/-- C2 counterexample: in the guest-first v25 variant, `unavailable-id`
during host registration does not fall back to a guest connect to the
same slot name; it advances the rotation to the next slot. -/
theorem c2_counterexample :
    V25.becomeHostOnError "unavailable-id" 3 = NextStep.nextSlot 4 ∧
    V25.becomeHostOnError "unavailable-id" 3
      ≠ NextStep.joinAsGuest (V25.roomId "en" 3) 3 := by
  decide

/-- C2 (amended): a lost registration race (`unavailable-id`) never
deadlocks the matching loop: in the host-first v12 variant it funnels
into the Guest path on the same slot name (`attemptToJoin`), while in the
guest-first v25 variant - where the guest connect to that slot was
already attempted and failed - it advances to the next slot, whose
attempt again begins with the Guest probe; every error outcome continues
the loop. -/
theorem c2_name_taken_funnels_to_guest
    (lang e : String) (slot : Nat) (s : RvSt)
    (h1 : s.appState ≠ AppState.CONNECTED) (h2 : s.selectedLang = some lang) :
    V12.hostOnError lang slot "unavailable-id"
      = NextStep.joinAsGuest (V12.roomId lang slot) slot ∧
    V25.becomeHostOnError "unavailable-id" slot = NextStep.nextSlot (slot + 1) ∧
    V12.hostOnError lang slot e ≠ NextStep.halt ∧
    V12.hostOnError lang slot e ≠ NextStep.fail ∧
    V25.becomeHostOnError e slot ≠ NextStep.halt ∧
    V25.startMatchingStep s (slot + 1) ≠ NextStep.halt := by
  have hcond : ¬(s.appState = AppState.CONNECTED ∨ s.selectedLang = none) := by
    rintro (h | h)
    · exact h1 h
    · rw [h2] at h; exact Option.noConfusion h
  refine ⟨by simp [V12.hostOnError], rfl, ?_, ?_, ?_, ?_⟩
  · unfold V12.hostOnError; split <;> simp
  · unfold V12.hostOnError; split <;> simp
  · unfold V25.becomeHostOnError; split <;> simp
  · unfold V25.startMatchingStep
    rw [if_neg hcond]
    split <;> simp

/-- C2 witness: the amended statement at a concrete slot and state. -/
theorem c2_witness :
    V12.hostOnError "en" 5 "unavailable-id"
      = NextStep.joinAsGuest (V12.roomId "en" 5) 5 ∧
    V25.becomeHostOnError "unavailable-id" 5 = NextStep.nextSlot 6 ∧
    V12.hostOnError "en" 5 "network" ≠ NextStep.halt ∧
    V12.hostOnError "en" 5 "network" ≠ NextStep.fail ∧
    V25.becomeHostOnError "network" 5 ≠ NextStep.halt ∧
    V25.startMatchingStep { appState := .MATCHING, selectedLang := some "en" } 6
      ≠ NextStep.halt :=
  c2_name_taken_funnels_to_guest "en" "network" 5
    { appState := .MATCHING, selectedLang := some "en" } (by decide) rfl

/-- C6: the slot identity is a deterministic pure function of the
selected language and the slot index: any two clients (in the v27 and
v25 variants) whose selected language agrees compute the identical slot
name string, whatever the rest of their state. -/
theorem c6_slot_identity_deterministic
    (s t : V27St) (u v : RvSt) (slot : Nat)
    (hst : s.selectedLang = t.selectedLang)
    (huv : u.selectedLang = v.selectedLang) :
    V27.computeRoomId s slot = V27.computeRoomId t slot ∧
    V25.computeRoomId u slot = V25.computeRoomId v slot := by
  constructor
  · simp [V27.computeRoomId, hst]
  · simp [V25.computeRoomId, huv]

/-- C6 witness: two clients differing in everything but the language
compute the same slot name. -/
theorem c6_witness :
    V27.computeRoomId { selectedLang := some "en", myPeerId := "11111111" } 3
      = V27.computeRoomId { selectedLang := some "en", elapsedTime := 99 } 3 ∧
    V25.computeRoomId { selectedLang := some "en" } 3
      = V25.computeRoomId { selectedLang := some "en", isBusy := true } 3 :=
  c6_slot_identity_deterministic
    { selectedLang := some "en", myPeerId := "11111111" }
    { selectedLang := some "en", elapsedTime := 99 }
    { selectedLang := some "en" }
    { selectedLang := some "en", isBusy := true } 3 rfl rfl

/-- C9 counterexample: in the v12 variant the wrap past the rotation set
(`MAX_SEQUENTIAL_SLOTS = 20`) is the inline normalisation
`slotIndex > 20 ? 1 : slotIndex`, performed in the same invocation with
no scheduled delay - unlike the claim's "after a short delay". -/
theorem c9_counterexample :
    V12.startMatchingSequenceStep AppState.MATCHING (some "en") 30 21
      = NextStep.probe 1 ∧
    (V12.startMatchingSequenceStep AppState.MATCHING (some "en") 30 21).isDelayedRestart
      = false := by
  decide

/-- C9 (amended): when the rotation advances past the maximum slot count
while matching is still in progress, the attempt index restarts at slot 1
rather than continuing past the rotation set - scheduled after a 1000 ms
delay in the v25 and v20 variants, and immediately (in the same
invocation) in the v12 variant; an index within the set is probed
unchanged. -/
theorem c9_rotation_wraps_to_slot_one
    (s t : RvSt) (lang : String) (big small : Nat)
    (hs1 : s.appState ≠ AppState.CONNECTED) (hs2 : s.selectedLang = some lang)
    (ht1 : t.appState ≠ AppState.CONNECTED) (ht2 : t.selectedLang = some lang)
    (hbig25 : V25.maxSlots < big) (hbig20 : V20.maxSlots < big)
    (hbig12 : V12.maxSequentialSlots < big)
    (hsmall : small ≤ V25.maxSlots) :
    V25.startMatchingStep s big = NextStep.restartAt 1 1000 ∧
    V20.findPartnerStep t big = NextStep.restartAt 1 1000 ∧
    V12.currentSlot big = 1 ∧
    V25.startMatchingStep s small = NextStep.probe small := by
  have hcs : ¬(s.appState = AppState.CONNECTED ∨ s.selectedLang = none) := by
    rintro (h | h)
    · exact hs1 h
    · rw [hs2] at h; exact Option.noConfusion h
  have hct : ¬(t.appState = AppState.CONNECTED ∨ t.selectedLang = none) := by
    rintro (h | h)
    · exact ht1 h
    · rw [ht2] at h; exact Option.noConfusion h
  refine ⟨?_, ?_, ?_, ?_⟩
  · unfold V25.startMatchingStep
    rw [if_neg hcs, if_pos hbig25]
  · unfold V20.findPartnerStep
    rw [if_neg hct, if_pos hbig20]
  · unfold V12.currentSlot
    rw [if_pos hbig12]
  · unfold V25.startMatchingStep
    rw [if_neg hcs, if_neg (Nat.not_lt.mpr hsmall)]

/-- C3: teardown (`cleanup`) from any state returns to `IDLE`, emits a
stop for every local media track, closes the media call and the data
channel when they exist and clears their references, and cancels every
session timer (match and session intervals), so no timer can fire after
teardown - in the v25 variant and the App.tsx dialer variant. -/
theorem c3_cleanup_teardown (s : RvSt) (t : V27St) :
    (V25.cleanup s).1.appState = AppState.IDLE ∧
    (V25.cleanup s).1.callConn = none ∧
    (V25.cleanup s).1.dataConn = none ∧
    (V25.cleanup s).1.localStream = none ∧
    (V25.cleanup s).1.matchTimerOn = false ∧
    (V25.cleanup s).1.sessionTimerOn = false ∧
    (s.localStream.getD []).map Action.stopTrack ⊆ (V25.cleanup s).2 ∧
    (s.callConn.isSome = true → Action.closeCall ∈ (V25.cleanup s).2) ∧
    (s.dataConn.isSome = true → Action.closeData ∈ (V25.cleanup s).2) ∧
    (V27.cleanup t).1.appState = AppState.IDLE ∧
    (V27.cleanup t).1.callConn = none ∧
    (V27.cleanup t).1.dataConn = none ∧
    (V27.cleanup t).1.localStream = none ∧
    (V27.cleanup t).1.matchTimerOn = false ∧
    (V27.cleanup t).1.sessionTimerOn = false ∧
    (t.localStream.getD []).map Action.stopTrack ⊆ (V27.cleanup t).2 ∧
    (t.callConn.isSome = true → Action.closeCall ∈ (V27.cleanup t).2) ∧
    (t.dataConn.isSome = true → Action.closeData ∈ (V27.cleanup t).2) := by
  refine ⟨rfl, rfl, rfl, rfl, rfl, rfl, ?_, ?_, ?_,
    rfl, rfl, rfl, rfl, rfl, rfl, ?_, ?_, ?_⟩
  · intro a ha
    simp only [V25.cleanup]
    exact List.mem_append_left _ (List.mem_append_right _ ha)
  · intro h
    simp [V25.cleanup, h]
  · intro h
    simp [V25.cleanup, h]
  · intro a ha
    simp only [V27.cleanup]
    exact List.mem_append_right _ ha
  · intro h
    simp [V27.cleanup, h]
  · intro h
    simp [V27.cleanup, h]

/-- C3 witness: teardown of a session with a live call, data channel and
a one-track local stream. -/
theorem c3_witness :
    (V25.cleanup rvLive).1.appState = AppState.IDLE ∧
    (V25.cleanup rvLive).1.callConn = none ∧
    (V25.cleanup rvLive).1.dataConn = none ∧
    (V25.cleanup rvLive).1.localStream = none ∧
    (V25.cleanup rvLive).1.matchTimerOn = false ∧
    (V25.cleanup rvLive).1.sessionTimerOn = false ∧
    (rvLive.localStream.getD []).map Action.stopTrack ⊆ (V25.cleanup rvLive).2 ∧
    (rvLive.callConn.isSome = true → Action.closeCall ∈ (V25.cleanup rvLive).2) ∧
    (rvLive.dataConn.isSome = true → Action.closeData ∈ (V25.cleanup rvLive).2) ∧
    (V27.cleanup v27Live).1.appState = AppState.IDLE ∧
    (V27.cleanup v27Live).1.callConn = none ∧
    (V27.cleanup v27Live).1.dataConn = none ∧
    (V27.cleanup v27Live).1.localStream = none ∧
    (V27.cleanup v27Live).1.matchTimerOn = false ∧
    (V27.cleanup v27Live).1.sessionTimerOn = false ∧
    (v27Live.localStream.getD []).map Action.stopTrack ⊆ (V27.cleanup v27Live).2 ∧
    (v27Live.callConn.isSome = true → Action.closeCall ∈ (V27.cleanup v27Live).2) ∧
    (v27Live.dataConn.isSome = true → Action.closeData ∈ (V27.cleanup v27Live).2) :=
  c3_cleanup_teardown rvLive v27Live

/-- C4: the audio-to-video upgrade is idempotent in the v12 and v5
variants: a second local `enableVideo` while video is already active is a
no-op, a duplicate incoming `SIGNAL_VIDEO_ENABLE` while already upgraded
is a no-op, and after one successful upgrade the video flag is set, so a
repeated invocation leaves the state unchanged - AudioVideo is reached
exactly once. -/
theorem c4_video_upgrade_idempotent
    (u : V12St) (w : V5St) (x : V12St) (y : V5St)
    (f f2 : Bool) (gum g2 : Option (List Nat)) (ts : List Nat) (nc n2 : Nat)
    (hu : u.isVideoActive = true) (hw : w.isVideoActive = true)
    (hy : 120 ≤ y.elapsedTime) :
    V12.enableVideo u f gum nc = (u, []) ∧
    V5.enableVideo w gum nc = (w, []) ∧
    V12.onData u CtrlMsg.SIGNAL_VIDEO_ENABLE gum nc = (u, []) ∧
    V5.onData w CtrlMsg.SIGNAL_VIDEO_ENABLE gum nc = (w, []) ∧
    (V12.enableVideo x true (some ts) nc).1.isVideoActive = true ∧
    (V5.enableVideo y (some ts) nc).1.isVideoActive = true ∧
    V12.enableVideo (V12.enableVideo x true (some ts) nc).1 f2 g2 n2
      = ((V12.enableVideo x true (some ts) nc).1, []) ∧
    V5.enableVideo (V5.enableVideo y (some ts) nc).1 g2 n2
      = ((V5.enableVideo y (some ts) nc).1, []) := by
  have h5 : (V12.enableVideo x true (some ts) nc).1.isVideoActive = true := by
    by_cases hx : x.isVideoActive = true
    · rw [v12_enableVideo_active x true (some ts) nc hx]; exact hx
    · simp [V12.enableVideo, hx]
  have h6 : (V5.enableVideo y (some ts) nc).1.isVideoActive = true := by
    by_cases hy2 : y.isVideoActive = true
    · rw [v5_enableVideo_active y (some ts) nc hy2]; exact hy2
    · have hen : V5.isVideoEnabled y = true := by
        unfold V5.isVideoEnabled; exact decide_eq_true hy
      simp [V5.enableVideo, hy2, hen]
  refine ⟨v12_enableVideo_active u f gum nc hu, v5_enableVideo_active w gum nc hw,
    ?_, ?_, h5, h6,
    v12_enableVideo_active _ f2 g2 n2 h5, v5_enableVideo_active _ g2 n2 h6⟩
  · exact v12_enableVideo_active u true gum nc hu
  · simp [V5.onData, hw]

/-- C4 witness: the idempotence at concrete upgraded and pre-upgrade
states. -/
theorem c4_witness :
    V12.enableVideo { isVideoActive := true } false none 1
      = ({ isVideoActive := true }, []) ∧
    V5.enableVideo { isVideoActive := true } none 1
      = ({ isVideoActive := true }, []) ∧
    V12.onData { isVideoActive := true } CtrlMsg.SIGNAL_VIDEO_ENABLE none 1
      = ({ isVideoActive := true }, []) ∧
    V5.onData { isVideoActive := true } CtrlMsg.SIGNAL_VIDEO_ENABLE none 1
      = ({ isVideoActive := true }, []) ∧
    (V12.enableVideo {} true (some [1, 2]) 1).1.isVideoActive = true ∧
    (V5.enableVideo { elapsedTime := 120 } (some [1, 2]) 1).1.isVideoActive = true ∧
    V12.enableVideo (V12.enableVideo {} true (some [1, 2]) 1).1 true (some [3]) 2
      = ((V12.enableVideo {} true (some [1, 2]) 1).1, []) ∧
    V5.enableVideo (V5.enableVideo { elapsedTime := 120 } (some [1, 2]) 1).1 (some [3]) 2
      = ((V5.enableVideo { elapsedTime := 120 } (some [1, 2]) 1).1, []) :=
  c4_video_upgrade_idempotent { isVideoActive := true } { isVideoActive := true }
    {} { elapsedTime := 120 } false true none (some [3]) [1, 2] 1 2
    rfl rfl (by decide)

/-- C5 counterexample: the retry/rotation loop does not stop at the
terminal error.  After the match timeout lands in `ERROR`, the rotation
guard of `startMatching` (part_001 line 117) still passes - it halts
only on `CONNECTED` or a missing language, both untouched by the expiry
- so a probe timeout scheduled before expiry that fires afterwards
continues the rotation instead of stopping. -/
theorem c5_counterexample :
    (V25.matchTick rvExpired).1.appState = AppState.ERROR ∧
    (V25.matchTick rvExpired).1.selectedLang = some "en" ∧
    V25.startMatchingStep (V25.matchTick rvExpired).1 3 = NextStep.probe 3 ∧
    V25.startMatchingStep (V25.matchTick rvExpired).1 3 ≠ NextStep.halt ∧
    V27.startMatchingStep (V27.matchTick v27Expired).1 3 = NextStep.probe 3 := by
  decide

/-- C5 (amended): when the match timer of `handleStart` expires, the
expiry tick runs the full teardown and moves to the terminal `ERROR`
state with the no-partner message; the timers are cancelled, every
action the tick emits only releases resources - the tick itself
schedules no retry - and the configured timeout constants lie in the
30-45 s range (v25 and App.tsx dialer variant).  The rotation loop is
not guaranteed to stop, however: its guard halts only on `CONNECTED` or
a missing language (or, in the dialer variant, a destroyed peer), all
untouched by the expiry, so a probe step taken after the terminal error
still proceeds. -/
theorem c5_match_timeout_terminal (s : RvSt) (t : V27St) (lang : String) (slot : Nat)
    (hs : s.matchTimer ≤ 1) (ht : t.matchTimer ≤ 1)
    (hlang : s.selectedLang = some lang) (hlang2 : t.selectedLang = some lang)
    (hpeer : t.peerAlive = true)
    (hslot25 : slot ≤ V25.maxSlots) (hslot27 : slot ≤ V27.maxSlots) :
    (V25.matchTick s).1.appState = AppState.ERROR ∧
    (V25.matchTick s).1.error = some V25.noPartnerMsg ∧
    (V25.matchTick s).1.matchTimerOn = false ∧
    (V25.matchTick s).1.sessionTimerOn = false ∧
    (V25.matchTick s).1.peerAlive = false ∧
    (V25.matchTick s).1.callConn = none ∧
    (V25.matchTick s).1.dataConn = none ∧
    (V25.matchTick s).1.localStream = none ∧
    ((V25.matchTick s).2).all Action.isRelease = true ∧
    30 ≤ V25.matchTimeout ∧ V25.matchTimeout ≤ 45 ∧
    (V27.matchTick t).1.appState = AppState.ERROR ∧
    (V27.matchTick t).1.error = some V27.noUsersMsg ∧
    (V27.matchTick t).1.matchTimerOn = false ∧
    (V27.matchTick t).1.sessionTimerOn = false ∧
    (V27.matchTick t).1.callConn = none ∧
    (V27.matchTick t).1.dataConn = none ∧
    (V27.matchTick t).1.localStream = none ∧
    ((V27.matchTick t).2).all Action.isRelease = true ∧
    30 ≤ V27.matchTimeout ∧ V27.matchTimeout ≤ 45 ∧
    V25.startMatchingStep (V25.matchTick s).1 slot = NextStep.probe slot ∧
    V27.startMatchingStep (V27.matchTick t).1 slot = NextStep.probe slot := by
  have h25 : V25.matchTick s
      = ({ (V25.cleanup s).1 with appState := .ERROR, error := some V25.noPartnerMsg, matchTimer := 0 },
         (V25.cleanup s).2) := by
    rw [V25.matchTick, if_pos hs]
  have h27 : V27.matchTick t
      = ({ (V27.cleanup t).1 with appState := .ERROR, error := some V27.noUsersMsg, matchTimer := 0 },
         (V27.cleanup t).2) := by
    rw [V27.matchTick, if_pos ht]
  have ha25 : (V25.matchTick s).1.appState = AppState.ERROR := by rw [h25]
  have hl25 : (V25.matchTick s).1.selectedLang = some lang := by rw [h25]; exact hlang
  have ha27 : (V27.matchTick t).1.appState = AppState.ERROR := by rw [h27]
  have hl27 : (V27.matchTick t).1.selectedLang = some lang := by rw [h27]; exact hlang2
  have hp27 : (V27.matchTick t).1.peerAlive = true := by rw [h27]; exact hpeer
  have hcont25 : V25.startMatchingStep (V25.matchTick s).1 slot = NextStep.probe slot := by
    have hc : ¬((V25.matchTick s).1.appState = AppState.CONNECTED ∨
        (V25.matchTick s).1.selectedLang = none) := by
      rintro (h | h)
      · rw [ha25] at h; exact AppState.noConfusion h
      · rw [hl25] at h; exact Option.noConfusion h
    unfold V25.startMatchingStep
    rw [if_neg hc, if_neg (Nat.not_lt.mpr hslot25)]
  have hcont27 : V27.startMatchingStep (V27.matchTick t).1 slot = NextStep.probe slot := by
    have hc : ¬((V27.matchTick t).1.appState = AppState.CONNECTED ∨
        (V27.matchTick t).1.selectedLang = none ∨
        (V27.matchTick t).1.peerAlive = false) := by
      rintro (h | h | h)
      · rw [ha27] at h; exact AppState.noConfusion h
      · rw [hl27] at h; exact Option.noConfusion h
      · rw [hp27] at h; exact Bool.noConfusion h
    unfold V27.startMatchingStep
    rw [if_neg hc, if_neg (Nat.not_lt.mpr hslot27)]
  rw [h25] at hcont25
  rw [h27] at hcont27
  rw [h25, h27]
  exact ⟨rfl, rfl, rfl, rfl, rfl, rfl, rfl, rfl, v25_cleanup_actions_release s,
    by decide, by decide, rfl, rfl, rfl, rfl, rfl, rfl, rfl,
    v27_cleanup_actions_release t, by decide, by decide, hcont25, hcont27⟩

/-- C5 witness: the amended statement on concrete expiring matching
states, probing slot 3 after the terminal error. -/
theorem c5_witness :
    (V25.matchTick rvExpired).1.appState = AppState.ERROR ∧
    (V25.matchTick rvExpired).1.error = some V25.noPartnerMsg ∧
    (V25.matchTick rvExpired).1.matchTimerOn = false ∧
    (V25.matchTick rvExpired).1.sessionTimerOn = false ∧
    (V25.matchTick rvExpired).1.peerAlive = false ∧
    (V25.matchTick rvExpired).1.callConn = none ∧
    (V25.matchTick rvExpired).1.dataConn = none ∧
    (V25.matchTick rvExpired).1.localStream = none ∧
    ((V25.matchTick rvExpired).2).all Action.isRelease = true ∧
    30 ≤ V25.matchTimeout ∧ V25.matchTimeout ≤ 45 ∧
    (V27.matchTick v27Expired).1.appState = AppState.ERROR ∧
    (V27.matchTick v27Expired).1.error = some V27.noUsersMsg ∧
    (V27.matchTick v27Expired).1.matchTimerOn = false ∧
    (V27.matchTick v27Expired).1.sessionTimerOn = false ∧
    (V27.matchTick v27Expired).1.callConn = none ∧
    (V27.matchTick v27Expired).1.dataConn = none ∧
    (V27.matchTick v27Expired).1.localStream = none ∧
    ((V27.matchTick v27Expired).2).all Action.isRelease = true ∧
    30 ≤ V27.matchTimeout ∧ V27.matchTimeout ≤ 45 ∧
    V25.startMatchingStep (V25.matchTick rvExpired).1 3 = NextStep.probe 3 ∧
    V27.startMatchingStep (V27.matchTick v27Expired).1 3 = NextStep.probe 3 :=
  c5_match_timeout_terminal rvExpired v27Expired "en" 3 (by decide) (by decide)
    rfl rfl rfl (by decide) (by decide)

/-- C7 counterexample: in the App.tsx dialer variant, a video request at
0 s elapsed (threshold 5 s) is rejected with the generic
"available soon" toast, which states no number of remaining seconds. -/
theorem c7_counterexample :
    (V27.toggleVideo { appState := .CONNECTED } none 0).1.toast
      = some Toast.videoSoon ∧
    Toast.secondsStated Toast.videoSoon = none ∧
    Toast.render Toast.videoSoon = "الفيديو متاح قريباً" := by
  decide

/-- C7 (amended): a local request for a gated capability (video upgrade
or text chat) before the configured elapsed-time threshold is rejected
locally without side effects - in the rendezvous variants (v25 video at
60 s and chat at 30 s, v12 video at 120 s and chat at 60 s, v5 chat at
60 s) with a toast stating the number of remaining seconds, in the
App.tsx dialer variant (video threshold 5 s) with a generic "available
soon" toast carrying no count - and each capability becomes available
only once elapsed time reaches its threshold. -/
theorem c7_feature_gate_threshold
    (s v : RvSt) (u u2 : V12St) (w w2 : V27St)
    (p p2 : RvSt) (q q2 : V12St) (r r2 : V5St)
    (gum : Option (List Nat)) (ts : List Nat) (nc : Nat)
    (hs1 : s.elapsedTime < 60) (hs2 : s.isVideoActive = false)
    (hv : 60 ≤ v.elapsedTime)
    (hu1 : u.elapsedTime < 120) (hu2 : u.isVideoActive = false)
    (hu3 : 120 ≤ u2.elapsedTime)
    (hw1 : w.elapsedTime < 5) (hw2 : w.isVideoActive = false)
    (hw3 : 5 ≤ w2.elapsedTime) (hw4 : w2.isVideoActive = false)
    (hp1 : p.elapsedTime < 30) (hp2 : 30 ≤ p2.elapsedTime)
    (hq1 : q.elapsedTime < 60) (hq2 : 60 ≤ q2.elapsedTime)
    (hr1 : r.elapsedTime < 60) (hr2 : 60 ≤ r2.elapsedTime) :
    V25.toggleVideo s gum nc
      = ({ s with toast := some (Toast.videoRemaining (60 - s.elapsedTime)) }, []) ∧
    Toast.secondsStated (Toast.videoRemaining (60 - s.elapsedTime))
      = some (60 - s.elapsedTime) ∧
    (V25.toggleVideo s gum nc).1.isVideoActive = false ∧
    (V25.toggleVideo v (some ts) nc).1.isVideoActive = true ∧
    V12.isVideoEnabled u = false ∧
    V12.enableVideo u false gum nc
      = ({ u with toast := some (Toast.v12videoRemaining (120 - u.elapsedTime)) }, []) ∧
    Toast.secondsStated (Toast.v12videoRemaining (120 - u.elapsedTime))
      = some (120 - u.elapsedTime) ∧
    V12.isVideoEnabled u2 = true ∧
    V27.toggleVideo w gum nc = ({ w with toast := some Toast.videoSoon }, []) ∧
    Toast.secondsStated Toast.videoSoon = none ∧
    (V27.toggleVideo w2 (some ts) nc).1.isVideoActive = true ∧
    V25.chatButton p
      = { p with toast := some (Toast.chatRemaining (30 - p.elapsedTime)) } ∧
    Toast.secondsStated (Toast.chatRemaining (30 - p.elapsedTime))
      = some (30 - p.elapsedTime) ∧
    (V25.chatButton p).isChatOpen = p.isChatOpen ∧
    (V25.chatButton p2).isChatOpen = true ∧
    V12.isChatEnabled q = false ∧
    V12.chatButton q
      = { q with toast := some (Toast.v12chatRemaining (60 - q.elapsedTime)) } ∧
    Toast.secondsStated (Toast.v12chatRemaining (60 - q.elapsedTime))
      = some (60 - q.elapsedTime) ∧
    V12.isChatEnabled q2 = true ∧
    (V12.chatButton q2).isChatOpen = true ∧
    V5.isChatEnabled r = false ∧
    V5.chatButton r
      = { r with toast := some (Toast.v5remaining (60 - r.elapsedTime)) } ∧
    Toast.secondsStated (Toast.v5remaining (60 - r.elapsedTime))
      = some (60 - r.elapsedTime) ∧
    V5.isChatEnabled r2 = true ∧
    (V5.chatButton r2).isChatOpen = true := by
  have hen : V12.isVideoEnabled u = false := by
    unfold V12.isVideoEnabled
    exact decide_eq_false (by omega)
  have hqe : V12.isChatEnabled q = false := by
    unfold V12.isChatEnabled
    exact decide_eq_false (by omega)
  have hq2e : V12.isChatEnabled q2 = true := by
    unfold V12.isChatEnabled
    exact decide_eq_true hq2
  have hre : V5.isChatEnabled r = false := by
    unfold V5.isChatEnabled
    exact decide_eq_false (by omega)
  have hr2e : V5.isChatEnabled r2 = true := by
    unfold V5.isChatEnabled
    exact decide_eq_true hr2
  have hg25 : V25.toggleVideo s gum nc
      = ({ s with toast := some (Toast.videoRemaining (60 - s.elapsedTime)) }, []) := by
    unfold V25.toggleVideo
    rw [if_pos ⟨hs1, hs2⟩]
  have hchat25 : V25.chatButton p
      = { p with toast := some (Toast.chatRemaining (30 - p.elapsedTime)) } := by
    unfold V25.chatButton
    rw [if_neg (Nat.not_le.mpr hp1)]
  refine ⟨hg25, rfl, ?_, ?_, hen, ?_, rfl, ?_, ?_, rfl, ?_,
    hchat25, rfl, ?_, ?_, hqe, ?_, rfl, hq2e, ?_, hre, ?_, rfl, hr2e, ?_⟩
  · rw [hg25]; exact hs2
  · have hcond : ¬(v.elapsedTime < 60 ∧ v.isVideoActive = false) :=
      fun h => absurd h.1 (Nat.not_lt.mpr hv)
    simp [V25.toggleVideo, hcond]
  · unfold V12.enableVideo
    rw [if_neg (by simp [hu2]), if_pos ⟨hen, rfl⟩]
  · unfold V12.isVideoEnabled
    exact decide_eq_true hu3
  · unfold V27.toggleVideo
    rw [if_pos ⟨hw1, hw2⟩]
  · have hlt : ¬ w2.elapsedTime < 5 := Nat.not_lt.mpr hw3
    simp [V27.toggleVideo, hlt, hw4]
  · rw [hchat25]
  · unfold V25.chatButton
    rw [if_pos hp2]
  · unfold V12.chatButton
    rw [if_neg (by simp [hqe])]
  · unfold V12.chatButton
    rw [if_pos hq2e]
  · unfold V5.chatButton
    rw [if_neg (by simp [hre])]
  · unfold V5.chatButton
    rw [if_pos hr2e]

/-- C7 witness: the amended statement at concrete elapsed times on each
side of every video and chat threshold. -/
theorem c7_witness :
    V25.toggleVideo rvEarly none 9
      = ({ rvEarly with toast := some (Toast.videoRemaining (60 - rvEarly.elapsedTime)) }, []) ∧
    Toast.secondsStated (Toast.videoRemaining (60 - rvEarly.elapsedTime))
      = some (60 - rvEarly.elapsedTime) ∧
    (V25.toggleVideo rvEarly none 9).1.isVideoActive = false ∧
    (V25.toggleVideo rvReady (some [1, 2]) 9).1.isVideoActive = true ∧
    V12.isVideoEnabled v12Early = false ∧
    V12.enableVideo v12Early false none 9
      = ({ v12Early with toast := some (Toast.v12videoRemaining (120 - v12Early.elapsedTime)) }, []) ∧
    Toast.secondsStated (Toast.v12videoRemaining (120 - v12Early.elapsedTime))
      = some (120 - v12Early.elapsedTime) ∧
    V12.isVideoEnabled v12Ready = true ∧
    V27.toggleVideo v27Early none 9
      = ({ v27Early with toast := some Toast.videoSoon }, []) ∧
    Toast.secondsStated Toast.videoSoon = none ∧
    (V27.toggleVideo v27Ready (some [1, 2]) 9).1.isVideoActive = true ∧
    V25.chatButton rvEarly
      = { rvEarly with toast := some (Toast.chatRemaining (30 - rvEarly.elapsedTime)) } ∧
    Toast.secondsStated (Toast.chatRemaining (30 - rvEarly.elapsedTime))
      = some (30 - rvEarly.elapsedTime) ∧
    (V25.chatButton rvEarly).isChatOpen = rvEarly.isChatOpen ∧
    (V25.chatButton rvReady).isChatOpen = true ∧
    V12.isChatEnabled v12ChatEarly = false ∧
    V12.chatButton v12ChatEarly
      = { v12ChatEarly with toast := some (Toast.v12chatRemaining (60 - v12ChatEarly.elapsedTime)) } ∧
    Toast.secondsStated (Toast.v12chatRemaining (60 - v12ChatEarly.elapsedTime))
      = some (60 - v12ChatEarly.elapsedTime) ∧
    V12.isChatEnabled v12Ready = true ∧
    (V12.chatButton v12Ready).isChatOpen = true ∧
    V5.isChatEnabled v5ChatEarly = false ∧
    V5.chatButton v5ChatEarly
      = { v5ChatEarly with toast := some (Toast.v5remaining (60 - v5ChatEarly.elapsedTime)) } ∧
    Toast.secondsStated (Toast.v5remaining (60 - v5ChatEarly.elapsedTime))
      = some (60 - v5ChatEarly.elapsedTime) ∧
    V5.isChatEnabled v5ChatReady = true ∧
    (V5.chatButton v5ChatReady).isChatOpen = true :=
  c7_feature_gate_threshold rvEarly rvReady v12Early v12Ready v27Early v27Ready
    rvEarly rvReady v12ChatEarly v12Ready v5ChatEarly v5ChatReady
    none [1, 2] 9
    (by decide) rfl (by decide) (by decide) rfl (by decide)
    (by decide) rfl (by decide) rfl
    (by decide) (by decide) (by decide) (by decide) (by decide) (by decide)

/-- C8: in the part_002 dialer, an incoming call while not busy only
starts the ring - the handler emits exactly `startRing`, no
`getUserMedia` - rejecting the call never emits `getUserMedia`, accepting
it is what emits the `getUserMedia` request, and a whole run of
incoming-call and reject events without an accept intent never emits a
`getUserMedia` request. -/
theorem c8_ringing_acquires_no_media
    (s : D27St) (cid : Nat) (p : String) (gum : Option (List Nat))
    (ts : List Nat) (v : Bool) (es : List D27.Ev)
    (hb : s.isBusy = false)
    (hic : s.incomingCall = some (cid, p))
    (hes : ∀ e ∈ es, e.isAccept = false) :
    (D27.onIncomingCall s cid p gum).2 = [Action.startRing] ∧
    Action.getUserMedia v ∉ (D27.onIncomingCall s cid p gum).2 ∧
    (D27.onIncomingCall s cid p gum).1.isBusy = false ∧
    Action.getUserMedia v ∉ (D27.handleReject s).2 ∧
    (D27.handleAccept s none (some ts)).2
      = [Action.stopRing, Action.getUserMedia s.isVideoActive,
         Action.answerWith ts] ∧
    Action.getUserMedia v ∉ D27.run s es := by
  have h1 : D27.onIncomingCall s cid p gum
      = ({ s with callerId := some p, incomingCall := some (cid, p), ringTimerOn := true },
         [Action.startRing]) := by
    unfold D27.onIncomingCall
    rw [if_neg (by simp [hb]), if_neg (by simp [hb])]
  refine ⟨by rw [h1], by rw [h1]; simp, by rw [h1]; exact hb, ?_, ?_,
    d27_run_no_gum es s v hb hes⟩
  · exact d27_step_no_gum s .reject v hb rfl
  · simp [D27.handleAccept, hic, Option.orElse]

/-- C8 witness: a concrete ring-then-reject run acquires no media. -/
theorem c8_witness :
    (D27.onIncomingCall d27Ringing 2 "555" none).2 = [Action.startRing] ∧
    Action.getUserMedia true ∉ (D27.onIncomingCall d27Ringing 2 "555" none).2 ∧
    (D27.onIncomingCall d27Ringing 2 "555" none).1.isBusy = false ∧
    Action.getUserMedia true ∉ (D27.handleReject d27Ringing).2 ∧
    (D27.handleAccept d27Ringing none (some [9])).2
      = [Action.stopRing, Action.getUserMedia d27Ringing.isVideoActive,
         Action.answerWith [9]] ∧
    Action.getUserMedia true ∉
      D27.run d27Ringing [D27.Ev.incomingCall 2 "555" none, D27.Ev.reject] :=
  c8_ringing_acquires_no_media d27Ringing 2 "555" none [9] true
    [D27.Ev.incomingCall 2 "555" none, D27.Ev.reject] rfl rfl (by decide)

/-- C10: in the part_002 dialer, local hangup (`cleanup`) sends a
`DISCONNECT` control message over the data channel before closing it and
lands in `IDLE`; a peer that receives `DISCONNECT` performs the same full
teardown to `IDLE` with its references cleared - so both sides of a
session converge to `IDLE` after either side hangs up. -/
theorem c10_disconnect_convergence (s t : D27St)
    (hd : s.dataConn.isSome = true) :
    (D27.cleanup s).1.appState = AppState.IDLE ∧
    List.Sublist [Action.sendMsg CtrlMsg.DISCONNECT, Action.closeData]
      ((D27.cleanup s).2) ∧
    (D27.onData t CtrlMsg.DISCONNECT).1.appState = AppState.IDLE ∧
    (D27.onData t CtrlMsg.DISCONNECT).1.callConn = none ∧
    (D27.onData t CtrlMsg.DISCONNECT).1.dataConn = none ∧
    (D27.onData t CtrlMsg.DISCONNECT).1.localStream = none ∧
    (D27.onData t CtrlMsg.DISCONNECT).1.error = t.error := by
  refine ⟨rfl, ?_, rfl, rfl, rfl, rfl, rfl⟩
  simp only [D27.cleanup]
  rw [if_pos hd]
  exact (List.sublist_append_right _ _).trans (List.sublist_append_left _ _)

/-- C10 witness: hangup with a live data channel on one side, receipt of
`DISCONNECT` on the other. -/
theorem c10_witness :
    (D27.cleanup d27Live).1.appState = AppState.IDLE ∧
    List.Sublist [Action.sendMsg CtrlMsg.DISCONNECT, Action.closeData]
      ((D27.cleanup d27Live).2) ∧
    (D27.onData d27Live2 CtrlMsg.DISCONNECT).1.appState = AppState.IDLE ∧
    (D27.onData d27Live2 CtrlMsg.DISCONNECT).1.callConn = none ∧
    (D27.onData d27Live2 CtrlMsg.DISCONNECT).1.dataConn = none ∧
    (D27.onData d27Live2 CtrlMsg.DISCONNECT).1.localStream = none ∧
    (D27.onData d27Live2 CtrlMsg.DISCONNECT).1.error = d27Live2.error :=
  c10_disconnect_convergence d27Live d27Live2 rfl

/-- C9 witness: the amended statement at slot 21 (past every rotation
set) and slot 4 (within the v25 set). -/
theorem c9_witness :
    V25.startMatchingStep { appState := .MATCHING, selectedLang := some "en" } 21
      = NextStep.restartAt 1 1000 ∧
    V20.findPartnerStep { appState := .MATCHING, selectedLang := some "en" } 21
      = NextStep.restartAt 1 1000 ∧
    V12.currentSlot 21 = 1 ∧
    V25.startMatchingStep { appState := .MATCHING, selectedLang := some "en" } 4
      = NextStep.probe 4 :=
  c9_rotation_wraps_to_slot_one
    { appState := .MATCHING, selectedLang := some "en" }
    { appState := .MATCHING, selectedLang := some "en" }
    "en" 21 4 (by decide) rfl (by decide) rfl
    (by decide) (by decide) (by decide) (by decide)

end AnyOne
